import Mathlib

/-!
Shallow embedding of the `prometheus_gke_sd` reconciliation loop (the newer,
channel-driven generation of the program: `loop`, `generateConfig`,
`clusterToScrapeConfigs`, `clusterListEqual`, `reloadPrometheus`,
`watchAndTick`, `writeClusterCerts`, and the static role table `GetRoles`).

Modelling conventions:
- Strings stand for Go strings and for decoded byte blobs.
- `yaml.Marshal` of a `PrometheusConfig` is a deterministic, injective function
  of the structure (yaml.v2 serializes struct fields in declaration order and
  map keys sorted), so artifact "bytes" are modelled by the structure itself.
- Fallible external effects (the GKE fetch, base64 decoding, filesystem
  writes, the reload HTTP POST) are supplied by an `Env` of oracles; the file
  system is an association list where the most recent write shadows.
- Go's `map` range order is unspecified and re-randomized at every `range`
  statement; the role table iteration is therefore parametrized by an
  enumeration order (one per cluster index), constrained in theorems to be a
  permutation of the table.
- Time in `reloadPrometheus` is modelled by an integer budget of nanoseconds
  (Go's `time.Duration` is an `int64` of nanoseconds); each failed attempt
  consumes its backoff delay.  The structural `fuel` argument only
  guarantees termination of the Lean recursion.
-/

namespace GkeSD

/-- One label-rewrite rule, from `roles.go`.  Field defaults mirror Go zero
values so sparse literals transcribe directly. -/
structure RelabelConfig where
  sourceLabels : List String := []
  seperator : String := ""
  regex : String := ""
  modulus : Nat := 0
  targetLabel : String := ""
  replacement : String := ""
  action : String := ""
deriving DecidableEq, Repr

/-- TLS file reference block of a kubernetes sd config. -/
structure TLSConfig where
  caFile : String := ""
  certFile : String := ""
  keyFile : String := ""
deriving DecidableEq, Repr

/-- Basic-auth credentials block. -/
structure BasicAuth where
  username : String := ""
  password : String := ""
deriving DecidableEq, Repr

/-- One `kubernetes_sd_configs` entry. -/
structure KubeSDConfig where
  apiServers : List String := []
  role : String := ""
  inCluster : Bool := false
  tlsConfig : TLSConfig := {}
deriving DecidableEq, Repr

/-- One scrape-config stanza.  `xxx` models the yaml inline map of
unrecognized fields, preserved verbatim. -/
structure ScrapeConfig where
  jobName : String := ""
  kubernetesSDConfigs : List KubeSDConfig := []
  relabelConfigs : List RelabelConfig := []
  basicAuth : BasicAuth := {}
  xxx : List (String × String) := []
deriving DecidableEq, Repr

/-- The parsed prometheus configuration document. -/
structure PrometheusConfig where
  scrapeConfigs : List ScrapeConfig := []
  xxx : List (String × String) := []
deriving DecidableEq, Repr

/-- Decidable equality for fallible results, used to evaluate the model at
concrete inputs. -/
instance {ε α : Type _} [DecidableEq ε] [DecidableEq α] : DecidableEq (Except ε α) := fun x y =>
  match x, y with
  | .error a, .error b =>
      if h : a = b then isTrue (by rw [h])
      else isFalse (by intro hxy; cases hxy; exact h rfl)
  | .error _, .ok _ => isFalse (by intro hxy; cases hxy)
  | .ok _, .error _ => isFalse (by intro hxy; cases hxy)
  | .ok a, .ok b =>
      if h : a = b then isTrue (by rw [h])
      else isFalse (by intro hxy; cases hxy; exact h rfl)

/-- The `MasterAuth` sub-record of a GKE cluster: basic-auth credentials and
three base64-encoded credential blobs. -/
structure MasterAuth where
  username : String := ""
  password : String := ""
  clusterCaCertificate : String := ""
  clientCertificate : String := ""
  clientKey : String := ""
deriving DecidableEq, Repr

/-- One discovered GKE cluster (the fields the program reads). -/
structure Cluster where
  name : String := ""
  endpoint : String := ""
  masterAuth : MasterAuth := {}
deriving DecidableEq, Repr

/-- The static role table of `roles.go`, transcribed in source-text order.
In Go it is a `map[string][]RelabelConfig`; here it is the underlying
association list, with enumeration order factored out separately. -/
def GetRoles : List (String × List RelabelConfig) :=
  [ ("apiserver", []),
    ("node",
      [ { action := "labelmap", regex := "__meta_kubernetes_node_label_(.+)" },
        { sourceLabels := ["__address__"], action := "replace",
          regex := "([\\d\\.]+):([\\d]+)", targetLabel := "__address__",
          replacement := "$1:10255" } ]),
    ("endpoint",
      [ { sourceLabels := ["__meta_kubernetes_service_annotation_prometheus_io_scrape"],
          action := "keep", regex := "true" },
        { sourceLabels := ["__meta_kubernetes_service_annotation_prometheus_io_scheme"],
          action := "replace", regex := "(https?)", targetLabel := "__scheme__" },
        { sourceLabels := ["__meta_kubernetes_service_annotation_prometheus_io_path"],
          action := "replace", regex := "(.+)", targetLabel := "__metrics_path__" },
        { sourceLabels := ["__address__", "__meta_kubernetes_service_annotation_prometheus_io_port"],
          action := "replace", regex := "(.+)(?::\\d+);(\\d+)",
          targetLabel := "__address__", replacement := "$1:$2" },
        { action := "labelmap", regex := "__meta_kubernetes_endpoint_label_(.+)" },
        { sourceLabels := ["__meta_kubernetes_service_namespace"],
          action := "replace", targetLabel := "kubernetes_namespace" },
        { sourceLabels := ["__meta_kubernetes_service_name"],
          action := "replace", targetLabel := "kubernetes_name" } ]),
    ("service",
      [ { sourceLabels := ["__meta_kubernetes_service_annotation_prometheus_io_probe"],
          action := "keep", regex := "true" },
        { sourceLabels := ["__address__"], regex := "(.*)(:80)?",
          targetLabel := "__param_target", replacement := "${1}" },
        { sourceLabels := ["__param_target"], regex := "(.*)",
          targetLabel := "instance", replacement := "${1}" },
        { sourceLabels := [], regex := ".*", targetLabel := "__address",
          replacement := "blackbox:9115" },
        { action := "labelmap", regex := "__meta_kubernetes_service_label_(.+)" },
        { sourceLabels := ["__meta_kubernetes_service_namespace"],
          targetLabel := "kubernetes_namespace" },
        { sourceLabels := ["__meta_kubernetes_service_name"],
          targetLabel := "kubernetes_name" } ]),
    ("pod",
      [ { sourceLabels := ["__meta_kubernetes_pod_annotation_prometheus_io_scrape"],
          action := "keep", regex := "true" },
        { sourceLabels := ["__meta_kubernetes_pod_annotation_prometheus_io_path"],
          action := "replace", regex := "(.+)", targetLabel := "__metrics_path__" },
        { sourceLabels := ["__address__", "__meta_kubernetes_pod_annotation_prometheus_io_port"],
          action := "replace", regex := "(.+):(?:\\d+);(\\d+)",
          replacement := "${1}:${2}", targetLabel := "__address__" },
        { action := "labelmap", regex := "__meta_kubernetes_pod_label_(.+)" },
        { sourceLabels := ["__meta_kubernetes_pod_namespace"],
          action := "replace", targetLabel := "kubernetes_namespace" },
        { sourceLabels := ["__meta_kubernetes_pod_name"],
          action := "replace", targetLabel := "kubernetes_pod_name" } ]) ]

/-- The derived stanza for one (cluster, role) pair, as built in the loop body
of `clusterToScrapeConfigs`. -/
def roleScrapeConfig (certDir : String) (cluster : Cluster)
    (role : String × List RelabelConfig) : ScrapeConfig :=
  { jobName := "kubernetes_" ++ cluster.name ++ "_" ++ role.1,
    basicAuth := { username := cluster.masterAuth.username,
                   password := cluster.masterAuth.password },
    kubernetesSDConfigs :=
      [ { apiServers := ["https://" ++ cluster.endpoint],
          role := role.1,
          inCluster := false,
          tlsConfig :=
            { caFile := certDir ++ "/" ++ cluster.name ++ "-ca.pem",
              certFile := certDir ++ "/" ++ cluster.name ++ "-cert.pem",
              keyFile := certDir ++ "/" ++ cluster.name ++ "-key.pem" } } ],
    relabelConfigs := role.2,
    xxx := [] }

/-- Embeds `clusterToScrapeConfigs`: empty-endpoint clusters yield no stanzas
(the Go code logs and returns the empty slice, with no error); otherwise one
stanza per role, in the supplied enumeration order of the role map. -/
def clusterToScrapeConfigs (roles : List (String × List RelabelConfig))
    (certDir : String) (cluster : Cluster) : List ScrapeConfig :=
  if cluster.endpoint = "" then []
  else roles.map (roleScrapeConfig certDir cluster)

/-- The derived stanzas of the `for _, c := range clusters` loop in
`generateConfig`; `ords i` is the role-map enumeration order that the fresh
`range GetRoles()` used for the i-th cluster. -/
def derivedConfigs (ords : Nat → List (String × List RelabelConfig))
    (certDir : String) : Nat → List Cluster → List ScrapeConfig
  | _, [] => []
  | i, c :: rest =>
      clusterToScrapeConfigs (ords i) certDir c ++
        derivedConfigs ords certDir (i + 1) rest

/-- Embeds `generateConfig`.  `input` is the result of `readInputConfig` on
the input artifact (file read + yaml parse, supplied by the environment); on
parse success the derived stanzas are appended after the input's stanzas and
the result is marshalled (modelled by the structure itself). -/
def generateConfig (input : Except String PrometheusConfig) (certDir : String)
    (clusters : List Cluster)
    (ords : Nat → List (String × List RelabelConfig)) :
    Except String PrometheusConfig :=
  match input with
  | .error e => .error ("could not load input config: " ++ e)
  | .ok inputConfig =>
      .ok { inputConfig with
              scrapeConfigs :=
                inputConfig.scrapeConfigs ++ derivedConfigs ords certDir 0 clusters }

/-- Names of a cluster list, used by the differ. -/
def names (clusters : List Cluster) : List String :=
  clusters.map Cluster.name

/-- Embeds `clusterListEqual`: builds the name sets of both lists and checks
mutual membership (content of endpoint and credentials is ignored). -/
def clusterListEqual (old new : List Cluster) : Bool :=
  (old.all fun o => (names new).contains o.name) &&
    (new.all fun n => (names old).contains n.name)

/-- Result of the reload actuator: `ok k` means attempt `k` (0-based) received
the acknowledgment; `err m` means the context deadline fired (or the model's
fuel ran out) after `m` attempts. -/
inductive ReloadResult where
  | ok : Nat → ReloadResult
  | err : Nat → ReloadResult
deriving DecidableEq, Repr

/-- Base backoff delay of the reload actuator in nanoseconds
(`reloadInterval = time.Second`; Go's `time.Duration` is an `int64` count of
nanoseconds). -/
def reloadInterval : Int := 1000000000

/-- The backoff update `backoff = time.Duration(float64(backoff) * 1.1)`:
multiplication by the growth factor 1.1 truncated back to integer
nanoseconds (the float64 rounding of very large durations is approximated by
exact rational multiplication before truncation). -/
def growBackoff (backoff : Int) : Int :=
  Int.tdiv (backoff * 11) 10

/-- Embeds the retry loop of `reloadPrometheus`.  `succeeds i` tells whether
the i-th HTTP POST is acknowledged; `remaining` is the time left before the
context deadline (the loop runs while `ctx.Err() == nil`); a failed attempt
sleeps for `backoff` and then grows the backoff.  `fuel` only bounds the
Lean recursion. -/
def reloadLoop (succeeds : Nat → Bool) :
    Nat → Nat → Int → Int → ReloadResult
  | 0, i, _, _ => .err i
  | fuel + 1, i, backoff, remaining =>
      if remaining ≤ 0 then .err i
      else if succeeds i then .ok i
      else reloadLoop succeeds fuel (i + 1) (growBackoff backoff)
        (remaining - backoff)

/-- Embeds `reloadPrometheus`: the retry loop started with the base backoff. -/
def reloadPrometheus (succeeds : Nat → Bool) (fuel : Nat) (deadline : Int) :
    ReloadResult :=
  reloadLoop succeeds fuel 0 reloadInterval deadline

/-- The delay waited after the i-th failed attempt: the base interval grown
i times, as the spec words it ("starting at the base interval and multiplied
by the growth factor after each failure"). -/
def backoffSeq : Nat → Int
  | 0 => reloadInterval
  | i + 1 => growBackoff (backoffSeq i)

/-- Modelled from the spec (for schedule comparison only): a retry loop whose
wait before retrying attempt `i + 1` is the externally supplied `delay i`. -/
def reloadRetrySpec (delay : Nat → Int) (succeeds : Nat → Bool) :
    Nat → Nat → Int → ReloadResult
  | 0, i, _ => .err i
  | fuel + 1, i, remaining =>
      if remaining ≤ 0 then .err i
      else if succeeds i then .ok i
      else reloadRetrySpec delay succeeds fuel (i + 1) (remaining - delay i)

/-- An event from one of the two merged sources of `watchAndTick`. -/
inductive SourceEvent where
  | filePulse : SourceEvent
  | tick : SourceEvent
deriving DecidableEq, Repr

/-- The trigger flag sent for one source event in the select loop of
`watchAndTick`: a debounced file pulse sends `true`, a timer tick `false`. -/
def triggerOf : SourceEvent → Bool
  | .filePulse => true
  | .tick => false

/-- The select loop of the `watchAndTick` goroutine over a finite prefix of
source events. -/
def mergeLoop : List SourceEvent → List Bool
  | [] => []
  | e :: rest => triggerOf e :: mergeLoop rest

/-- Embeds `watchAndTick`: the goroutine first sends `false` ("Add an initial
tick") and then forwards each source event through the select loop. -/
def watchAndTickStream (evts : List SourceEvent) : List Bool :=
  false :: mergeLoop evts

/-- Default output artifact path (`configOutputFile`). -/
def configOutputFile : String := "/etc/gke-output.yml"

/-- Default certificate output directory (`certOutDir`). -/
def certOutDir : String := "/etc/gke-certs"

/-- Default certificate reference directory (`certReferenceDir`). -/
def certReferenceDir : String := "/etc/gke-certs"

/-- Oracles for the fallible external effects of one cycle.  `dec` is base64
decoding; `fileWriteOk` says whether `ioutil.WriteFile` on a path succeeds,
and `residual`/`outResidual` give the (unspecified) content a failed write
leaves behind.  `ords i` is the role-map enumeration order used for the i-th
cluster, `reloadOks`/`reloadFuel`/`reloadBudget` drive the reload actuator. -/
structure Env where
  fetched : Except String (List Cluster)
  dec : String → Option String
  fileWriteOk : String → Bool
  residual : String → String
  outResidual : Option PrometheusConfig
  inputConfig : Except String PrometheusConfig
  reloadOks : Nat → Bool
  reloadFuel : Nat
  reloadBudget : Int
  ords : Nat → List (String × List RelabelConfig)

/-- The mutable state a cycle can touch: the in-memory baseline
(`currentClusters`), the certificate files, and the output artifact (modelled
as the parsed form of its bytes; `none` stands for pre-existing foreign
content). -/
structure LoopState where
  currentClusters : List Cluster
  certFS : List (String × String)
  outputFile : Option PrometheusConfig

/-- Embeds `writeCert`: base64-decode one credential blob and write it to
`<outDir>/<name>-<type>.pem`; decode failure or write failure is an error
(a failed write leaves oracle-chosen residual content). -/
def writeCert (env : Env) (fs : List (String × String))
    (outDir clusterName certType b64Cert : String) :
    List (String × String) × Option String :=
  match env.dec b64Cert with
  | none => (fs, some "could not b64 decode cert")
  | some cert =>
      let fname := outDir ++ "/" ++ clusterName ++ "-" ++ certType ++ ".pem"
      if env.fileWriteOk fname then ((fname, cert) :: fs, none)
      else ((fname, env.residual fname) :: fs, some "could not write file")

/-- Embeds `writeClusterCerts`: writes ca, cert and key for each cluster in
order, stopping at the first error (earlier writes stay on disk). -/
def writeClusterCerts (env : Env) (outDir : String) :
    List Cluster → List (String × String) →
    List (String × String) × Option String
  | [], fs => (fs, none)
  | c :: rest, fs =>
      match writeCert env fs outDir c.name "ca" c.masterAuth.clusterCaCertificate with
      | (fs1, some e) => (fs1, some ("could not write ca cert: " ++ e))
      | (fs1, none) =>
          match writeCert env fs1 outDir c.name "cert" c.masterAuth.clientCertificate with
          | (fs2, some e) => (fs2, some ("could not write client cert: " ++ e))
          | (fs2, none) =>
              match writeCert env fs2 outDir c.name "key" c.masterAuth.clientKey with
              | (fs3, some e) => (fs3, some ("could not write client key: " ++ e))
              | (fs3, none) => writeClusterCerts env outDir rest fs3

/-- The stage pipeline of `loop` after the short-circuit check: write certs,
generate config, write the artifact, reload prometheus, and only then commit
`currentClusters` ("Only set new clusters after a successful reload"). -/
def runStages (env : Env) (s : LoopState) (newClusters : List Cluster) :
    LoopState × Option String :=
  match writeClusterCerts env certOutDir newClusters s.certFS with
  | (fs1, some e) =>
      ({ s with certFS := fs1 }, some ("could not update cluster certs: " ++ e))
  | (fs1, none) =>
      let s1 : LoopState := { s with certFS := fs1 }
      match generateConfig env.inputConfig certReferenceDir newClusters env.ords with
      | .error e => (s1, some ("could not generate config: " ++ e))
      | .ok newConfig =>
          if env.fileWriteOk configOutputFile then
            let s2 : LoopState := { s1 with outputFile := some newConfig }
            match reloadPrometheus env.reloadOks env.reloadFuel env.reloadBudget with
            | .err _ => (s2, some "could not reload prometheus")
            | .ok _ => ({ s2 with currentClusters := newClusters }, none)
          else
            ({ s1 with outputFile := env.outResidual }, some "could not write config")

/-- Embeds one invocation of the `loop` closure in `main`: fetch the cluster
list; a soft trigger (`force = false`) whose fetched set has the baseline's
name membership returns nil immediately; otherwise run all stages. -/
def loop (env : Env) (force : Bool) (s : LoopState) :
    LoopState × Option String :=
  match env.fetched with
  | .error e => (s, some ("could not find clusters: " ++ e))
  | .ok newClusters =>
      if !force && clusterListEqual s.currentClusters newClusters then (s, none)
      else runStages env s newClusters

/-! Concrete fixtures used by witnesses and counterexamples. -/

/-- A cluster with a master endpoint. -/
def clusterAlpha : Cluster := { name := "alpha", endpoint := "1.2.3.4" }

/-- The same cluster name behind a different endpoint (name-only equality
treats it as unchanged). -/
def clusterAlphaMoved : Cluster := { name := "alpha", endpoint := "9.9.9.9" }

/-- A cluster whose master endpoint is the empty string. -/
def clusterBeta : Cluster := { name := "beta", endpoint := "" }

/-- An input artifact with one authored stanza. -/
def inputAuthored : PrometheusConfig :=
  { scrapeConfigs := [ { jobName := "authored" } ], xxx := [] }

/-- An environment whose fetch, certificate writes, config generation and
artifact write all succeed, but whose reload target never acknowledges and
whose cycle deadline is 2 seconds. -/
def envReloadFail : Env :=
  { fetched := .ok [clusterAlpha],
    dec := fun s => some s,
    fileWriteOk := fun _ => true,
    residual := fun _ => "",
    outResidual := none,
    inputConfig := .ok inputAuthored,
    reloadOks := fun _ => false,
    reloadFuel := 100,
    reloadBudget := 2000000000,
    ords := fun _ => GetRoles }

/-- The empty startup state (empty baseline, nothing written yet). -/
def stInit : LoopState :=
  { currentClusters := [], certFS := [], outputFile := none }

/-- A state whose committed baseline holds the alpha cluster at its old
endpoint. -/
def stAlpha : LoopState :=
  { currentClusters := [clusterAlphaMoved], certFS := [], outputFile := none }

/-- The artifact `generateConfig` produces from `inputAuthored` and the alpha
cluster under the source-order role enumeration. -/
def outCA : PrometheusConfig :=
  { scrapeConfigs :=
      inputAuthored.scrapeConfigs ++
        derivedConfigs (fun _ => GetRoles) certReferenceDir 0 [clusterAlpha],
    xxx := [] }

/-- A reload target that fails twice and then acknowledges. -/
def failTwice : Nat → Bool := fun i => decide (2 ≤ i)

/-! Helper lemmas. -/

/-- The merged stream forwards the i-th source event as the (i+1)-th trigger. -/
theorem mergeLoop_get? (evts : List SourceEvent) :
    ∀ i, (mergeLoop evts).get? i = (evts.get? i).map triggerOf := by
  induction evts with
  | nil => intro i; cases i <;> rfl
  | cons e rest ih =>
    intro i
    cases i with
    | zero => rfl
    | succ j => simpa [mergeLoop] using ih j

/-- An erroring stage pipeline does not change the committed baseline. -/
theorem runStages_err_frame (env : Env) (s : LoopState) (cs : List Cluster) :
    ∀ e, (runStages env s cs).2 = some e →
      (runStages env s cs).1.currentClusters = s.currentClusters := by
  intro e h
  rcases hW : writeClusterCerts env certOutDir cs s.certFS with ⟨fs1, oe⟩
  unfold runStages at h ⊢
  rw [hW] at h ⊢
  cases oe with
  | some e1 => rfl
  | none =>
    rcases hG : generateConfig env.inputConfig certReferenceDir cs env.ords with e2 | cfg
    · rfl
    · rw [hG] at h
      cases hF : env.fileWriteOk configOutputFile with
      | false => rfl
      | true =>
        rcases hR : reloadPrometheus env.reloadOks env.reloadFuel env.reloadBudget with k | m
        · rw [hR] at h; simp [hF] at h
        · rfl

/-- A stage pipeline that returns nil went through every stage successfully
and committed the fetched set. -/
theorem runStages_success_spec (env : Env) (s : LoopState) (cs : List Cluster)
    (h : (runStages env s cs).2 = none) :
    (writeClusterCerts env certOutDir cs s.certFS).2 = none ∧
    (∃ cfg, generateConfig env.inputConfig certReferenceDir cs env.ords = .ok cfg ∧
      (runStages env s cs).1.outputFile = some cfg) ∧
    env.fileWriteOk configOutputFile = true ∧
    (∃ k, reloadPrometheus env.reloadOks env.reloadFuel env.reloadBudget = .ok k) ∧
    (runStages env s cs).1.currentClusters = cs := by
  rcases hW : writeClusterCerts env certOutDir cs s.certFS with ⟨fs1, oe⟩
  unfold runStages at h ⊢
  rw [hW] at h ⊢
  cases oe with
  | some e1 => simp at h
  | none =>
    refine ⟨rfl, ?_⟩
    rcases hG : generateConfig env.inputConfig certReferenceDir cs env.ords with e2 | cfg
    · rw [hG] at h; simp at h
    · rw [hG] at h
      cases hF : env.fileWriteOk configOutputFile with
      | false => rw [hF] at h; simp at h
      | true =>
        rw [hF] at h
        rcases hR : reloadPrometheus env.reloadOks env.reloadFuel env.reloadBudget with k | m
        · exact ⟨⟨cfg, rfl, rfl⟩, rfl, ⟨k, rfl⟩, rfl⟩
        · rw [hR] at h; simp at h

/-- A failure at the certificate or the config-generation stage leaves the
output artifact untouched (those stages run before the artifact write). -/
theorem runStages_pre_write_err_frame (env : Env) (s : LoopState) (cs : List Cluster) :
    ((∃ e, (writeClusterCerts env certOutDir cs s.certFS).2 = some e) ∨
     (∃ e, generateConfig env.inputConfig certReferenceDir cs env.ords = .error e)) →
    (runStages env s cs).1.outputFile = s.outputFile ∧ (runStages env s cs).2 ≠ none := by
  intro hpre
  rcases hW : writeClusterCerts env certOutDir cs s.certFS with ⟨fs1, oe⟩
  unfold runStages
  rw [hW]
  cases oe with
  | some e1 => exact ⟨rfl, by simp⟩
  | none =>
    rcases hG : generateConfig env.inputConfig certReferenceDir cs env.ords with e2 | cfg
    · exact ⟨rfl, by simp⟩
    · rcases hpre with ⟨e, he⟩ | ⟨e, he⟩
      · rw [hW] at he; simp at he
      · rw [hG] at he; simp at he

/-- When every stage up to the artifact write succeeds but the reload fails,
the pipeline errors with the newly generated artifact already on disk and the
baseline untouched. -/
theorem runStages_reload_err (env : Env) (s : LoopState) (cs : List Cluster)
    (hW : (writeClusterCerts env certOutDir cs s.certFS).2 = none)
    (cfg : PrometheusConfig)
    (hG : generateConfig env.inputConfig certReferenceDir cs env.ords = .ok cfg)
    (hF : env.fileWriteOk configOutputFile = true)
    (m : Nat)
    (hR : reloadPrometheus env.reloadOks env.reloadFuel env.reloadBudget = .err m) :
    (runStages env s cs).1.outputFile = some cfg ∧
    (runStages env s cs).2 = some "could not reload prometheus" ∧
    (runStages env s cs).1.currentClusters = s.currentClusters := by
  rcases hW2 : writeClusterCerts env certOutDir cs s.certFS with ⟨fs1, oe⟩
  unfold runStages
  rw [hW2]
  rw [hW2] at hW
  cases oe with
  | some e1 => simp at hW
  | none =>
    rw [hG, hR]
    simp [hF]


/-- A fetch error returns the wrapped error without touching the state. -/
theorem loop_eq_of_fetch_err (env : Env) (force : Bool) (s : LoopState)
    (e : String) (h : env.fetched = .error e) :
    loop env force s = (s, some ("could not find clusters: " ++ e)) := by
  simp [loop, h]

/-- A soft trigger over an unchanged name set short-circuits to nil. -/
theorem loop_eq_skip (env : Env) (s : LoopState) (cs : List Cluster)
    (h : env.fetched = .ok cs)
    (heq : clusterListEqual s.currentClusters cs = true) :
    loop env false s = (s, none) := by
  simp [loop, h, heq]

/-- A forced trigger, or a soft trigger over a changed name set, runs the
whole stage pipeline. -/
theorem loop_eq_runStages (env : Env) (force : Bool) (s : LoopState)
    (cs : List Cluster) (h : env.fetched = .ok cs)
    (hp : force = true ∨ clusterListEqual s.currentClusters cs = false) :
    loop env force s = runStages env s cs := by
  rcases hp with rfl | hne
  · simp [loop, h]
  · simp [loop, h, hne]

/-- A successful reload attempt is the first successful one. -/
theorem reloadLoop_ok_first (succeeds : Nat → Bool) :
    ∀ fuel i b r k, reloadLoop succeeds fuel i b r = .ok k →
      succeeds k = true ∧ i ≤ k ∧ ∀ j, i ≤ j → j < k → succeeds j = false := by
  intro fuel
  induction fuel with
  | zero => intro i b r k h; simp [reloadLoop] at h
  | succ f ih =>
    intro i b r k h
    unfold reloadLoop at h
    by_cases hr : r ≤ 0
    · simp [hr] at h
    · rw [if_neg hr] at h
      cases hs : succeeds i with
      | true =>
        rw [hs] at h; simp at h
        subst h
        exact ⟨hs, le_refl i, fun j h1 h2 => absurd h1 (by omega)⟩
      | false =>
        rw [hs] at h; simp at h
        have := ih (i + 1) (growBackoff b) (r - b) k h
        refine ⟨this.1, by omega, fun j h1 h2 => ?_⟩
        rcases Nat.eq_or_lt_of_le h1 with rfl | hlt
        · exact hs
        · exact this.2.2 j hlt h2

/-- The attempt counter of an erroring reload loop never goes backwards. -/
theorem reloadLoop_err_ge (succeeds : Nat → Bool) :
    ∀ fuel i b r m, reloadLoop succeeds fuel i b r = .err m → i ≤ m := by
  intro fuel
  induction fuel with
  | zero => intro i b r m h; simp [reloadLoop] at h; omega
  | succ f ih =>
    intro i b r m h
    unfold reloadLoop at h
    by_cases hr : r ≤ 0
    · simp [hr] at h; omega
    · rw [if_neg hr] at h
      cases hs : succeeds i with
      | true => rw [hs] at h; simp at h
      | false =>
        rw [hs] at h; simp at h
        have := ih (i + 1) (growBackoff b) (r - b) m h
        omega

/-- The state-threaded backoff of the source equals the closed delay schedule
`backoffSeq` of the spec. -/
theorem reloadLoop_eq_retrySpec (succeeds : Nat → Bool) :
    ∀ fuel i r, reloadLoop succeeds fuel i (backoffSeq i) r =
      reloadRetrySpec backoffSeq succeeds fuel i r := by
  intro fuel
  induction fuel with
  | zero => intro i r; rfl
  | succ f ih =>
    intro i r
    unfold reloadLoop reloadRetrySpec
    by_cases hr : r ≤ 0
    · simp [hr]
    · rw [if_neg hr, if_neg hr]
      cases hs : succeeds i with
      | true => rfl
      | false =>
        have hgrow : growBackoff (backoffSeq i) = backoffSeq (i + 1) := rfl
        rw [hgrow, ih (i + 1) (r - backoffSeq i)]

/-- Derived stanza count: one stanza per role for each cluster with a
non-empty endpoint. -/
theorem derivedConfigs_length (ords : Nat → List (String × List RelabelConfig))
    (certDir : String) (clusters : List Cluster)
    (hep : ∀ c ∈ clusters, c.endpoint ≠ "")
    (hord : ∀ i, (ords i).length = GetRoles.length) :
    ∀ i, (derivedConfigs ords certDir i clusters).length =
      clusters.length * GetRoles.length := by
  induction clusters with
  | nil => intro i; rfl
  | cons c rest ih =>
    intro i
    have hc : c.endpoint ≠ "" := hep c (List.mem_cons_self c rest)
    have hrest : ∀ x ∈ rest, x.endpoint ≠ "" := fun x hx => hep x (List.mem_cons_of_mem c hx)
    simp only [derivedConfigs, List.length_append, clusterToScrapeConfigs, hc, if_neg, if_false,
      List.length_map, ih hrest (i + 1), List.length_cons]
    rw [hord i]
    ring

/-- Pointwise-permuted role enumeration orders yield permuted derived
stanza lists. -/
theorem derivedConfigs_perm (ords1 ords2 : Nat → List (String × List RelabelConfig))
    (certDir : String) (clusters : List Cluster)
    (hp : ∀ i, (ords1 i).Perm (ords2 i)) :
    ∀ i, (derivedConfigs ords1 certDir i clusters).Perm
      (derivedConfigs ords2 certDir i clusters) := by
  induction clusters with
  | nil => intro i; exact List.Perm.refl _
  | cons c rest ih =>
    intro i
    refine List.Perm.append ?_ (ih (i + 1))
    unfold clusterToScrapeConfigs
    by_cases hc : c.endpoint = ""
    · simp [hc]
    · simp only [hc, if_neg, if_false]
      exact (hp i).map _

/-! Claim theorems. -/

/-- C1: in every reconciliation cycle, `currentClusters` is assigned the
newly fetched cluster set only after the credential write, config
generation, artifact write, and Prometheus reload have all succeeded; if any
stage returns an error, the baseline is left exactly as it was before the
cycle. -/
theorem loop_baseline (env : Env) (force : Bool) (s : LoopState) :
    (∀ e, (loop env force s).2 = some e →
      (loop env force s).1.currentClusters = s.currentClusters)
    ∧ ((loop env force s).1.currentClusters ≠ s.currentClusters →
        (loop env force s).2 = none ∧
        ∃ cs, env.fetched = .ok cs ∧
          (writeClusterCerts env certOutDir cs s.certFS).2 = none ∧
          (∃ cfg, generateConfig env.inputConfig certReferenceDir cs env.ords = .ok cfg) ∧
          env.fileWriteOk configOutputFile = true ∧
          (∃ k, reloadPrometheus env.reloadOks env.reloadFuel env.reloadBudget = .ok k) ∧
          (loop env force s).1.currentClusters = cs) := by
  rcases hFe : env.fetched with e | cs
  · rw [loop_eq_of_fetch_err env force s e hFe]
    exact ⟨fun _ _ => rfl, fun hne => absurd rfl hne⟩
  · by_cases hc : (!force && clusterListEqual s.currentClusters cs) = true
    · have hferr : force = false := by
        cases force with
        | false => rfl
        | true => simp at hc
      have heq : clusterListEqual s.currentClusters cs = true := by
        cases heq2 : clusterListEqual s.currentClusters cs with
        | true => rfl
        | false => rw [hferr, heq2] at hc; simp at hc
      rw [hferr, loop_eq_skip env s cs hFe heq]
      exact ⟨fun e h => by simp at h, fun hne => absurd rfl hne⟩
    · have hp : force = true ∨ clusterListEqual s.currentClusters cs = false := by
        cases force with
        | true => exact Or.inl rfl
        | false =>
          cases heq2 : clusterListEqual s.currentClusters cs with
          | false => exact Or.inr rfl
          | true => rw [heq2] at hc; simp at hc
      rw [loop_eq_runStages env force s cs hFe hp]
      refine ⟨runStages_err_frame env s cs, fun hne => ?_⟩
      rcases hres : (runStages env s cs).2 with _ | e
      · have hsp := runStages_success_spec env s cs hres
        exact ⟨rfl, cs, rfl, hsp.1, ⟨hsp.2.1.choose, hsp.2.1.choose_spec.1⟩,
          hsp.2.2.1, hsp.2.2.2.1, hsp.2.2.2.2⟩
      · exact absurd (runStages_err_frame env s cs e hres) hne

/-- C1 witness: a cycle whose reload fails errors out and leaves the empty
baseline empty. -/
theorem loop_baseline_witness :
    (loop envReloadFail true stInit).2 = some "could not reload prometheus" ∧
    (loop envReloadFail true stInit).1.currentClusters = stInit.currentClusters :=
  ⟨by decide,
   (loop_baseline envReloadFail true stInit).1 "could not reload prometheus" (by decide)⟩

/-- C2 counterexample: a cycle that fails (at the reload stage) but has
already replaced the output artifact's bytes, so the claim "any failed cycle
leaves the previously written artifact bytes unchanged" is false. -/
theorem loop_failed_cycle_changed_artifact :
    (loop envReloadFail true stInit).2 ≠ none ∧
    (loop envReloadFail true stInit).1.outputFile ≠ stInit.outputFile := by
  constructor
  · decide
  · decide

/-- C2 amended: a cycle failing at fetch, credential write, or config
generation leaves the output artifact untouched; a cycle whose artifact
write succeeded but whose reload failed errors out with the newly generated
config - not the previous bytes - in the output file. -/
theorem loop_artifact_frame (env : Env) (force : Bool) (s : LoopState) :
    (∀ e, env.fetched = .error e →
      (loop env force s).1.outputFile = s.outputFile)
    ∧ (∀ cs, env.fetched = .ok cs →
        ((∃ e, (writeClusterCerts env certOutDir cs s.certFS).2 = some e) ∨
         (∃ e, generateConfig env.inputConfig certReferenceDir cs env.ords = .error e)) →
        (loop env force s).1.outputFile = s.outputFile)
    ∧ (∀ cs cfg m, env.fetched = .ok cs →
        (force = true ∨ clusterListEqual s.currentClusters cs = false) →
        (writeClusterCerts env certOutDir cs s.certFS).2 = none →
        generateConfig env.inputConfig certReferenceDir cs env.ords = .ok cfg →
        env.fileWriteOk configOutputFile = true →
        reloadPrometheus env.reloadOks env.reloadFuel env.reloadBudget = .err m →
        (loop env force s).1.outputFile = some cfg ∧ (loop env force s).2 ≠ none) := by
  refine ⟨fun e h => ?_, fun cs h hpre => ?_, fun cs cfg m h hp hW hG hF hR => ?_⟩
  · rw [loop_eq_of_fetch_err env force s e h]
  · by_cases hcnd : (!force && clusterListEqual s.currentClusters cs) = true
    · have hferr : force = false := by
        cases force with
        | false => rfl
        | true => simp at hcnd
      have heq : clusterListEqual s.currentClusters cs = true := by
        cases heq2 : clusterListEqual s.currentClusters cs with
        | true => rfl
        | false => rw [hferr, heq2] at hcnd; simp at hcnd
      rw [hferr, loop_eq_skip env s cs h heq]
    · have hp : force = true ∨ clusterListEqual s.currentClusters cs = false := by
        cases force with
        | true => exact Or.inl rfl
        | false =>
          cases heq2 : clusterListEqual s.currentClusters cs with
          | false => exact Or.inr rfl
          | true => rw [heq2] at hcnd; simp at hcnd
      rw [loop_eq_runStages env force s cs h hp]
      exact (runStages_pre_write_err_frame env s cs hpre).1
  · rw [loop_eq_runStages env force s cs h hp]
    have hre := runStages_reload_err env s cs hW cfg hG hF m hR
    exact ⟨hre.1, by rw [hre.2.1]; simp⟩

/-- C2 amended witness: the reload-failure cycle leaves the freshly generated
config in the output file and reports an error. -/
theorem loop_artifact_frame_witness :
    envReloadFail.fetched = .ok [clusterAlpha] ∧
    (writeClusterCerts envReloadFail certOutDir [clusterAlpha] stInit.certFS).2 = none ∧
    generateConfig envReloadFail.inputConfig certReferenceDir [clusterAlpha] envReloadFail.ords = .ok outCA ∧
    envReloadFail.fileWriteOk configOutputFile = true ∧
    reloadPrometheus envReloadFail.reloadOks envReloadFail.reloadFuel envReloadFail.reloadBudget = .err 2 ∧
    ((loop envReloadFail true stInit).1.outputFile = some outCA ∧
      (loop envReloadFail true stInit).2 ≠ none) :=
  ⟨rfl, by decide, by decide, rfl, by decide,
   (loop_artifact_frame envReloadFail true stInit).2.2 [clusterAlpha] outCA 2 rfl
     (Or.inl rfl) (by decide) (by decide) rfl (by decide)⟩

/-- C3 counterexample: with one authored stanza and one cluster, the output
is not "derived stanzas first, authored appended after them" - the authored
stanza comes first. -/
theorem generateConfig_authored_before_derived_cex :
    derivedConfigs (fun _ => GetRoles) certReferenceDir 0 [clusterAlpha] ≠ [] ∧
    generateConfig (.ok inputAuthored) certReferenceDir [clusterAlpha] (fun _ => GetRoles) ≠
      .ok { inputAuthored with
              scrapeConfigs :=
                derivedConfigs (fun _ => GetRoles) certReferenceDir 0 [clusterAlpha] ++
                  inputAuthored.scrapeConfigs } := by
  constructor
  · decide
  · decide

/-- C3 amended: `generateConfig` preserves every authored stanza of the
input verbatim and in original relative order, as a prefix of the output -
i.e. BEFORE all derived stanzas, which are appended after them - and passes
the input's unrecognized top-level fields through unchanged. -/
theorem generateConfig_preserves_authored (inp : PrometheusConfig) (certDir : String)
    (clusters : List Cluster) (ords : Nat → List (String × List RelabelConfig))
    (out : PrometheusConfig)
    (h : generateConfig (.ok inp) certDir clusters ords = .ok out) :
    out.scrapeConfigs.take inp.scrapeConfigs.length = inp.scrapeConfigs
    ∧ out.scrapeConfigs.drop inp.scrapeConfigs.length =
        derivedConfigs ords certDir 0 clusters
    ∧ out.xxx = inp.xxx := by
  have hout : out = { inp with
      scrapeConfigs := inp.scrapeConfigs ++ derivedConfigs ords certDir 0 clusters } := by
    simpa [generateConfig] using h.symm
  subst hout
  exact ⟨List.take_left _ _, List.drop_left _ _, rfl⟩

/-- C3 amended witness: the concrete one-authored-stanza artifact. -/
theorem generateConfig_preserves_authored_witness :
    generateConfig (.ok inputAuthored) certReferenceDir [clusterAlpha]
      (fun _ => GetRoles) = .ok outCA ∧
    (outCA.scrapeConfigs.take inputAuthored.scrapeConfigs.length = inputAuthored.scrapeConfigs
    ∧ outCA.scrapeConfigs.drop inputAuthored.scrapeConfigs.length =
        derivedConfigs (fun _ => GetRoles) certReferenceDir 0 [clusterAlpha]
    ∧ outCA.xxx = inputAuthored.xxx) :=
  ⟨by decide,
   generateConfig_preserves_authored inputAuthored certReferenceDir [clusterAlpha]
     (fun _ => GetRoles) outCA (by decide)⟩

/-- C4 counterexample: a cluster set of size N = 1 whose only cluster has an
empty endpoint produces 0 derived stanzas, not N x R = 5. -/
theorem generateConfig_derived_count_cex :
    (generateConfig (.ok { scrapeConfigs := [], xxx := [] }) certReferenceDir
        [clusterBeta] (fun _ => GetRoles)).map
      (fun o => o.scrapeConfigs.length) = .ok 0 ∧
    (0 : Nat) ≠ 1 * GetRoles.length := by
  constructor
  · decide
  · decide

/-- C4 amended: for every cluster set of size N in which each cluster has a
non-empty endpoint, and every enumeration of the role table (size R = 5),
`generateConfig` produces exactly N x R derived stanzas in addition to all
authored stanzas; clusters with an empty endpoint contribute zero stanzas. -/
theorem generateConfig_derived_count (inp : PrometheusConfig) (certDir : String)
    (clusters : List Cluster) (ords : Nat → List (String × List RelabelConfig))
    (out : PrometheusConfig)
    (hep : ∀ c ∈ clusters, c.endpoint ≠ "")
    (hord : ∀ i, (ords i).length = GetRoles.length)
    (h : generateConfig (.ok inp) certDir clusters ords = .ok out) :
    out.scrapeConfigs.length =
      inp.scrapeConfigs.length + clusters.length * GetRoles.length
    ∧ GetRoles.length = 5 := by
  have hout : out = { inp with
      scrapeConfigs := inp.scrapeConfigs ++ derivedConfigs ords certDir 0 clusters } := by
    simpa [generateConfig] using h.symm
  subst hout
  refine ⟨?_, rfl⟩
  simp [List.length_append, derivedConfigs_length ords certDir clusters hep hord 0]

/-- C4 amended witness: one non-empty-endpoint cluster yields 1 + 1 * 5
stanzas. -/
theorem generateConfig_derived_count_witness :
    (∀ c ∈ [clusterAlpha], c.endpoint ≠ "") ∧
    (outCA.scrapeConfigs.length =
      inputAuthored.scrapeConfigs.length + 1 * GetRoles.length
    ∧ GetRoles.length = 5) :=
  ⟨by decide,
   by
    have hcount := generateConfig_derived_count inputAuthored certReferenceDir
      [clusterAlpha] (fun _ => GetRoles) outCA (by decide) (fun _ => rfl) (by decide)
    simpa using hcount⟩

/-- C5 counterexample: two invocations over the same input artifact,
certificate reference directory and cluster set, differing only in the
(unspecified) enumeration order of the Go role map, produce different
outputs - so byte-identical output on repeated invocation is not
guaranteed. -/
theorem generateConfig_role_order_cex :
    GetRoles.reverse.Perm GetRoles ∧
    generateConfig (.ok { scrapeConfigs := [], xxx := [] }) certReferenceDir
        [clusterAlpha] (fun _ => GetRoles) ≠
      generateConfig (.ok { scrapeConfigs := [], xxx := [] }) certReferenceDir
        [clusterAlpha] (fun _ => GetRoles.reverse) := by
  constructor
  · exact List.reverse_perm GetRoles
  · decide

/-- C5 amended: the generator is a pure function of the input artifact,
certificate directory, cluster list and role enumeration orders: identical
orders give identical output, and any two valid enumeration orders give
outputs containing the same stanzas with the authored prefix unchanged -
only the relative order of derived stanzas may differ. -/
theorem generateConfig_deterministic_up_to_role_order (inp : PrometheusConfig)
    (certDir : String) (clusters : List Cluster)
    (ords1 ords2 : Nat → List (String × List RelabelConfig))
    (out1 out2 : PrometheusConfig)
    (hp : ∀ i, (ords1 i).Perm (ords2 i))
    (h1 : generateConfig (.ok inp) certDir clusters ords1 = .ok out1)
    (h2 : generateConfig (.ok inp) certDir clusters ords2 = .ok out2) :
    out1.scrapeConfigs.Perm out2.scrapeConfigs
    ∧ out1.xxx = out2.xxx
    ∧ out1.scrapeConfigs.take inp.scrapeConfigs.length =
        out2.scrapeConfigs.take inp.scrapeConfigs.length
    ∧ (ords1 = ords2 → out1 = out2) := by
  have e1 : out1 = { inp with
      scrapeConfigs := inp.scrapeConfigs ++ derivedConfigs ords1 certDir 0 clusters } := by
    simpa [generateConfig] using h1.symm
  have e2 : out2 = { inp with
      scrapeConfigs := inp.scrapeConfigs ++ derivedConfigs ords2 certDir 0 clusters } := by
    simpa [generateConfig] using h2.symm
  subst e1; subst e2
  refine ⟨List.Perm.append (List.Perm.refl _)
      (derivedConfigs_perm ords1 ords2 certDir clusters hp 0),
    rfl, by rw [List.take_left, List.take_left], fun he => by rw [he]⟩

/-- C5 amended witness: instantiated at the source order on both sides. -/
theorem generateConfig_deterministic_witness :
    outCA.scrapeConfigs.Perm outCA.scrapeConfigs
    ∧ outCA.xxx = outCA.xxx
    ∧ outCA.scrapeConfigs.take inputAuthored.scrapeConfigs.length =
        outCA.scrapeConfigs.take inputAuthored.scrapeConfigs.length
    ∧ ((fun _ : Nat => GetRoles) = (fun _ : Nat => GetRoles) → outCA = outCA) :=
  generateConfig_deterministic_up_to_role_order inputAuthored certReferenceDir
    [clusterAlpha] (fun _ => GetRoles) (fun _ => GetRoles) outCA outCA
    (fun _ => List.Perm.refl _) (by decide) (by decide)

/-- C6 counterexample: the very first trigger emitted by the merged stream
is `false` (a soft trigger, the "initial tick"), not a forced one as the
claim states. -/
theorem watchAndTick_first_trigger_cex :
    (watchAndTickStream []).head? = some false ∧
    (watchAndTickStream []).head? ≠ some true := by
  constructor
  · rfl
  · decide

/-- C6 amended: the merged trigger stream emits exactly one SOFT trigger
(flag false, the initial tick) as its first event at startup; every
subsequent debounce pulse yields one forced trigger (true) and every timer
tick yields one soft trigger (false). -/
theorem watchAndTickStream_spec (evts : List SourceEvent) :
    (watchAndTickStream evts).head? = some false
    ∧ triggerOf .filePulse = true
    ∧ triggerOf .tick = false
    ∧ ∀ i, (watchAndTickStream evts).get? (i + 1) = (evts.get? i).map triggerOf :=
  ⟨rfl, rfl, rfl, fun i => mergeLoop_get? evts i⟩

/-- C7: `clusterListEqual` returns true iff the two lists have identical name
membership (endpoint and credential content ignored), and it is symmetric. -/
theorem clusterListEqual_spec (A B : List Cluster) :
    (clusterListEqual A B = true ↔ ∀ n, n ∈ names A ↔ n ∈ names B)
    ∧ clusterListEqual A B = clusterListEqual B A := by
  constructor
  · simp only [clusterListEqual, Bool.and_eq_true, List.all_eq_true]
    constructor
    · rintro ⟨h1, h2⟩ n
      constructor
      · intro hn
        rcases List.mem_map.1 hn with ⟨c, hc, rfl⟩
        have := h1 c hc
        simpa [List.contains] using this
      · intro hn
        rcases List.mem_map.1 hn with ⟨c, hc, rfl⟩
        have := h2 c hc
        simpa [List.contains] using this
    · intro h
      constructor
      · intro c hc
        have : c.name ∈ names B := (h c.name).1 (List.mem_map_of_mem _ hc)
        simpa [List.contains] using this
      · intro c hc
        have : c.name ∈ names A := (h c.name).2 (List.mem_map_of_mem _ hc)
        simpa [List.contains] using this
  · simp [clusterListEqual, Bool.and_comm]

/-- C8: `reloadPrometheus` succeeds exactly on the first acknowledged
attempt; its waits follow the spec schedule - the base interval (1s) grown
by the factor 1.1 after each failure - and when no attempt ever succeeds it
returns an error once the deadline is consumed, having made at least one
attempt. -/
theorem reloadPrometheus_spec (succeeds : Nat → Bool) (fuel : Nat) (d : Int)
    (hd : 0 < d) (hf : 1 ≤ fuel) :
    (∀ k, reloadPrometheus succeeds fuel d = .ok k →
      succeeds k = true ∧ ∀ j, j < k → succeeds j = false)
    ∧ reloadPrometheus succeeds fuel d = reloadRetrySpec backoffSeq succeeds fuel 0 d
    ∧ ((∀ i, succeeds i = false) →
       ∃ m, reloadPrometheus succeeds fuel d = .err m ∧ 1 ≤ m) := by
  refine ⟨fun k h => ?_, ?_, fun hfail => ?_⟩
  · have hfst := reloadLoop_ok_first succeeds fuel 0 reloadInterval d k h
    exact ⟨hfst.1, fun j hj => hfst.2.2 j (Nat.zero_le j) hj⟩
  · exact reloadLoop_eq_retrySpec succeeds fuel 0 d
  · rcases fuel with _ | f
    · omega
    · unfold reloadPrometheus reloadLoop
      rw [if_neg (by omega : ¬ d ≤ 0), hfail 0]
      simp only [Bool.false_eq_true, if_false]
      rcases hres : reloadLoop succeeds f 1 (growBackoff reloadInterval) (d - reloadInterval) with k | m
      · have hok := (reloadLoop_ok_first succeeds f 1 _ _ k hres).1
        rw [hfail k] at hok; simp at hok
      · exact ⟨m, rfl, reloadLoop_err_ge succeeds f 1 _ _ m hres⟩

/-- C8 witness: a target failing twice then succeeding, under a 5 second
deadline, follows the spec retry schedule. -/
theorem reloadPrometheus_spec_witness :
    reloadPrometheus failTwice 10 5000000000 =
      reloadRetrySpec backoffSeq failTwice 10 0 5000000000 :=
  (reloadPrometheus_spec failTwice 10 5000000000 (by decide) (by decide)).2.1

/-- C9: the name-set comparison gates only soft triggers: a soft trigger
whose fetched set matches the baseline's name membership skips credential
writing, config generation, artifact write and reload (the state is returned
unchanged with no error), while a forced trigger always runs the full stage
pipeline regardless of the comparison. -/
theorem loop_gating (env : Env) (s : LoopState) (cs : List Cluster)
    (h : env.fetched = .ok cs) :
    (clusterListEqual s.currentClusters cs = true → loop env false s = (s, none))
    ∧ loop env true s = runStages env s cs
    ∧ (clusterListEqual s.currentClusters cs = false →
        ∀ force, loop env force s = runStages env s cs) :=
  ⟨fun heq => loop_eq_skip env s cs h heq,
   loop_eq_runStages env true s cs h (Or.inl rfl),
   fun hne force => loop_eq_runStages env force s cs h (Or.inr hne)⟩

/-- C9 witness: a baseline holding "alpha" at an old endpoint name-matches a
fetch of "alpha" at a new endpoint, so the soft trigger is a no-op while the
forced trigger runs the pipeline. -/
theorem loop_gating_witness :
    clusterListEqual stAlpha.currentClusters [clusterAlpha] = true ∧
    loop envReloadFail false stAlpha = (stAlpha, none) ∧
    loop envReloadFail true stAlpha = runStages envReloadFail stAlpha [clusterAlpha] :=
  ⟨by decide,
   (loop_gating envReloadFail stAlpha [clusterAlpha] rfl).1 (by decide),
   (loop_gating envReloadFail stAlpha [clusterAlpha] rfl).2.1⟩

/-- C10: a cluster whose Endpoint is the empty string yields zero derived
stanzas from `clusterToScrapeConfigs` with no error, and `generateConfig`
still succeeds on any parsed input while silently omitting that cluster's
stanzas. -/
theorem clusterToScrapeConfigs_empty_endpoint
    (roles : List (String × List RelabelConfig)) (certDir : String) (c : Cluster)
    (h : c.endpoint = "") (inp : PrometheusConfig) (clusters : List Cluster)
    (ords : Nat → List (String × List RelabelConfig)) :
    clusterToScrapeConfigs roles certDir c = [] ∧
    ∃ out, generateConfig (.ok inp) certDir clusters ords = .ok out :=
  ⟨by simp [clusterToScrapeConfigs, h], ⟨_, rfl⟩⟩

/-- C10 witness: the beta cluster has an empty endpoint and contributes no
stanzas, while generation still succeeds. -/
theorem clusterToScrapeConfigs_empty_endpoint_witness :
    clusterBeta.endpoint = "" ∧
    (clusterToScrapeConfigs GetRoles certReferenceDir clusterBeta = [] ∧
     ∃ out, generateConfig (.ok inputAuthored) certReferenceDir [clusterBeta]
       (fun _ => GetRoles) = .ok out) :=
  ⟨rfl, clusterToScrapeConfigs_empty_endpoint GetRoles certReferenceDir clusterBeta rfl
    inputAuthored [clusterBeta] (fun _ => GetRoles)⟩

end GkeSD
